import Mathlib

/-!
Verification of the Express/Mongoose user registration and login backend
(`src/Backend/server.js`). The two HTTP handlers, `POST /users` and
`POST /userlogin`, are shallowly embedded as pure Lean functions over an
explicit user collection; the bcryptjs comparison primitive used by the
login path is modelled, and the store (Mongoose model, whose file
`model/user.js` is not in the sources) is modelled from the spec.
-/

namespace TelecomAuth

/-- A persisted user document: the four fields the register handler
destructures from the request body (`server.js` line 38). -/
structure UserRec where
  name : String
  email : String
  password : String
  mobileNo : String
deriving DecidableEq, Repr

/-- A JSON response body: the three shapes the handlers produce, namely
a bare message, a message together with a user document, or an error
message. -/
inductive Body where
  | message : String → Body
  | messageUser : String → UserRec → Body
  | error : String → Body
deriving DecidableEq, Repr

/-- An HTTP response: status code and JSON body. -/
structure Response where
  status : Nat
  body : Body
deriving DecidableEq, Repr

/-! ## The bcryptjs comparison primitive

The login handler calls `bcrypt.compare(password, user.password)`.
bcryptjs first rejects any stored value whose length is not 60 (a bcrypt
hash string is exactly 60 characters), then re-hashes the supplied
plaintext with the salt specification taken from the first 29 characters
of the stored hash and compares the results.  The digest itself is
cryptographic; `bcryptRoll`/`bcryptDigest` below are a concrete
deterministic stand-in of the right length (the theorems in this file
depend only on the length-60 rejection and use the comparison outcome as
a hypothesis elsewhere). -/

/-- Deterministic stand-in for the bcrypt digest core: a rolling hash of
the salt specification followed by the plaintext. -/
def bcryptRoll (data : List Char) : Nat :=
  data.foldl (fun a c => (a * 131 + c.toNat) % 1000000007) 5381

/-- Pad a string on the left with the character '0' up to length `n`. -/
def padLeftZeros (s : String) (n : Nat) : String :=
  String.mk (List.replicate (n - s.length) '0') ++ s

/-- Stand-in for the 31-character bcrypt digest of a plaintext under a
salt specification. -/
def bcryptDigest (plain saltSpec : String) : String :=
  padLeftZeros (toString (bcryptRoll (saltSpec.data ++ plain.data))) 31

/-- Model of bcryptjs `hashSync(plain, saltSpec)`: the salt
specification (29 characters) followed by the 31-character digest. -/
def bcryptHashSync (plain saltSpec : String) : String :=
  saltSpec ++ bcryptDigest plain saltSpec

/-- Model of bcryptjs `compare(plain, hash)`: reject any stored value
that is not 60 characters long, otherwise re-hash the plaintext with the
salt specification embedded in the stored hash and compare. -/
def bcryptCompare (plain hash : String) : Bool :=
  if hash.length = 60 then bcryptHashSync plain (hash.take 29) == hash
  else false

/-! ## The User Store

`server.js` requires the Mongoose model from `./model/user`, a file not
present in the sources; per the spec (§4.1) the store exposes creation,
failing when the email already exists (uniqueness enforced by the
store), and lookup by email. -/

/-- Model of `User.findOne({ email })` (`server.js` line 52): the first
persisted record whose email equals the given one, if any. -/
def findOne (db : List UserRec) (email : String) : Option UserRec :=
  db.find? (fun u => u.email == email)

/-- Modelled from the spec: `model/user.js` is not in the sources; per
§4.1 the store's create persists the given record and fails when the
email already exists (uniqueness constraint surfaced by the persistence
layer).  The record is stored exactly as given — per the spec, the
registration path does not hash the password (only the login path uses
the hashing primitive). -/
def userSave (db : List UserRec) (u : UserRec) : Except String (List UserRec) :=
  if db.any (fun v => v.email == u.email) then
    Except.error "E11000 duplicate key error"
  else
    Except.ok (db ++ [u])

/-! ## The Auth Service handlers -/

/-- The `POST /users` handler (`server.js` lines 36–45): destructure
name, email, password, mobileNo from the body, build a user record with
the password exactly as supplied, save it, and answer 201 with the
created record on success or 400 with the store's error message on
failure. -/
def postUsers (db : List UserRec) (name email password mobileNo : String) :
    Response × List UserRec :=
  let user : UserRec := ⟨name, email, password, mobileNo⟩
  match userSave db user with
  | Except.ok db2 => (⟨201, Body.messageUser "User created successfully" user⟩, db2)
  | Except.error e => (⟨400, Body.error e⟩, db)

/-- The body of the `POST /userlogin` handler (`server.js` lines 47–68)
after the awaited lookup: a rejected lookup is caught and mapped to 500,
an absent record to 400 "User not found", a comparison mismatch to 400
"Invalid credentials", and a match to 200 with the record. -/
def userloginHandler (findResult : Except String (Option UserRec)) (password : String) :
    Response :=
  match findResult with
  | Except.error e => ⟨500, Body.error e⟩
  | Except.ok none => ⟨400, Body.message "User not found"⟩
  | Except.ok (some user) =>
      if bcryptCompare password user.password then
        ⟨200, Body.messageUser "Logged in successfully" user⟩
      else
        ⟨400, Body.message "Invalid credentials"⟩

/-- The `POST /userlogin` handler against a store whose lookup
succeeds. -/
def postUserlogin (db : List UserRec) (email password : String) : Response :=
  userloginHandler (Except.ok (findOne db email)) password

/-- A request to one of the two POST endpoints. -/
inductive Request where
  | createUser : String → String → String → String → Request
  | userlogin : String → String → Request
deriving DecidableEq, Repr

/-- One server step: dispatch a request against the current persisted
collection, producing the response and the collection afterwards.  Only
the register handler ever writes (`user.save()`); the login handler only
reads (`User.findOne`). -/
def serverStep (db : List UserRec) : Request → Response × List UserRec
  | Request.createUser n e p m => postUsers db n e p m
  | Request.userlogin e p => (postUserlogin db e p, db)

/-- The sample registration record of the spec's example scenario. -/
def sampleUser : UserRec :=
  ⟨"A", "a@x.com", "secret1", "555"⟩

/-! ## Shared lemmas -/

/-- A lookup by email misses exactly when no persisted record carries
that email. -/
theorem findOne_eq_none_iff (db : List UserRec) (email : String) :
    findOne db email = none ↔ ∀ u ∈ db, u.email ≠ email := by
  simp [findOne, List.find?_eq_none]

/-! ## Claims -/

/-- C1: the claim says the register operation hashes the plaintext
password before persisting; at the spec's example input the handler
passes the plaintext itself to the store, and the record persisted holds
the plaintext `"secret1"`, not a hash. -/
theorem C1_register_persists_plaintext :
    postUsers [] "A" "a@x.com" "secret1" "555" =
      (⟨201, Body.messageUser "User created successfully" sampleUser⟩, [sampleUser]) ∧
    sampleUser.password = "secret1" := by
  constructor <;> rfl

/-- C2: the claim says registering and then logging in with the same
plaintext password succeeds with 200; at the spec's example input the
registration succeeds with 201 but the subsequent login with the very
same password answers 400 "Invalid credentials", because the stored
value is the 7-character plaintext, which the comparison primitive
rejects. -/
theorem C2_roundtrip_login_fails :
    (postUsers [] "A" "a@x.com" "secret1" "555").1.status = 201 ∧
    postUserlogin (postUsers [] "A" "a@x.com" "secret1" "555").2 "a@x.com" "secret1" =
      ⟨400, Body.message "Invalid credentials"⟩ := by
  constructor <;> rfl

/-- C3: the claim says the stored password field is never equal to the
supplied plaintext; at the spec's example input the single persisted
record's password field is exactly the supplied plaintext
`"secret1"`. -/
theorem C3_stored_password_equals_plaintext :
    ((postUsers [] "A" "a@x.com" "secret1" "555").2.map UserRec.password) = ["secret1"] := by
  rfl

/-- C4: a login request whose email matches no persisted record answers
400 with message "User not found". -/
theorem C4_login_unknown_email (db : List UserRec) (email password : String)
    (h : ∀ u ∈ db, u.email ≠ email) :
    postUserlogin db email password = ⟨400, Body.message "User not found"⟩ := by
  have hnone : findOne db email = none := (findOne_eq_none_iff db email).mpr h
  simp [postUserlogin, userloginHandler, hnone]

/-- Witness for C4 at the spec's example scenario: no record carries the
email "nobody@x.com", and the login answers 400 "User not found". -/
theorem C4_login_unknown_email_witness :
    (∀ u ∈ [sampleUser], u.email ≠ "nobody@x.com") ∧
    postUserlogin [sampleUser] "nobody@x.com" "x" =
      ⟨400, Body.message "User not found"⟩ := by
  refine ⟨by decide, C4_login_unknown_email [sampleUser] "nobody@x.com" "x" (by decide)⟩

/-- C5: a login request whose email matches a persisted record but whose
supplied password fails the comparison primitive against the stored
value answers 400 with message "Invalid credentials". -/
theorem C5_login_wrong_password (db : List UserRec) (email password : String)
    (user : UserRec) (hfind : findOne db email = some user)
    (hcmp : bcryptCompare password user.password = false) :
    postUserlogin db email password = ⟨400, Body.message "Invalid credentials"⟩ := by
  simp [postUserlogin, userloginHandler, hfind, hcmp]

/-- Witness for C5 at the spec's example scenario: the email matches the
sample record, the comparison rejects the password "wrong", and the
login answers 400 "Invalid credentials". -/
theorem C5_login_wrong_password_witness :
    findOne [sampleUser] "a@x.com" = some sampleUser ∧
    bcryptCompare "wrong" sampleUser.password = false ∧
    postUserlogin [sampleUser] "a@x.com" "wrong" =
      ⟨400, Body.message "Invalid credentials"⟩ :=
  ⟨by decide, by decide,
    C5_login_wrong_password [sampleUser] "a@x.com" "wrong" sampleUser
      (by decide) (by decide)⟩

/-- C6: both credential failures of the login operation answer the same
client-error status 400 and are told apart only by the message, while a
failing lookup (store error) answers 500, distinct from both. -/
theorem C6_login_status_taxonomy (db : List UserRec) (email password e : String)
    (user : UserRec) :
    (findOne db email = none →
      (postUserlogin db email password).status = 400 ∧
      (postUserlogin db email password).body = Body.message "User not found") ∧
    (findOne db email = some user → bcryptCompare password user.password = false →
      (postUserlogin db email password).status = 400 ∧
      (postUserlogin db email password).body = Body.message "Invalid credentials") ∧
    (userloginHandler (Except.error e) password = ⟨500, Body.error e⟩) ∧
    Body.message "User not found" ≠ Body.message "Invalid credentials" ∧
    (500 : Nat) ≠ 400 := by
  refine ⟨fun h => ?_, fun h hc => ?_, rfl, by decide, by decide⟩
  · simp [postUserlogin, userloginHandler, h]
  · simp [postUserlogin, userloginHandler, h, hc]

/-- Witness for C6: both concrete credential failures answer 400 with
their distinguishing messages, and a concrete store error answers
500. -/
theorem C6_login_status_taxonomy_witness :
    (postUserlogin [] "nobody@x.com" "x").status = 400 ∧
    (postUserlogin [sampleUser] "a@x.com" "wrong").status = 400 ∧
    userloginHandler (Except.error "store down") "x" =
      ⟨500, Body.error "store down"⟩ :=
  ⟨((C6_login_status_taxonomy [] "nobody@x.com" "x" "store down" sampleUser).1
      (by decide)).1,
   ((C6_login_status_taxonomy [sampleUser] "a@x.com" "wrong" "store down" sampleUser).2.1
      (by decide) (by decide)).1,
   (C6_login_status_taxonomy [sampleUser] "a@x.com" "wrong" "store down" sampleUser).2.2.1⟩

/-- C7: a registration whose email equals the email of an
already-persisted record is rejected: the store's uniqueness constraint
fails the save, the handler answers 400 carrying the store's error
message, and the collection is unchanged. -/
theorem C7_register_duplicate_email (db : List UserRec) (n e p m : String)
    (u : UserRec) (hu : u ∈ db) (he : u.email = e) :
    postUsers db n e p m = (⟨400, Body.error "E11000 duplicate key error"⟩, db) := by
  have hdup : db.any (fun v => v.email == e) = true :=
    List.any_eq_true.mpr ⟨u, hu, by simp [he]⟩
  simp [postUsers, userSave, hdup]

/-- Witness for C7 at the spec's example scenario: re-registering the
email "a@x.com" answers 400 with the store's error message and leaves
the collection unchanged. -/
theorem C7_register_duplicate_email_witness :
    sampleUser ∈ [sampleUser] ∧
    postUsers [sampleUser] "B" "a@x.com" "other" "666" =
      (⟨400, Body.error "E11000 duplicate key error"⟩, [sampleUser]) :=
  ⟨by decide,
    C7_register_duplicate_email [sampleUser] "B" "a@x.com" "other" "666"
      sampleUser (by decide) (by decide)⟩

/-- C8: a registration the store accepts answers 201 with a message and
the created record, and the record echoed in the response carries the
stored password field unredacted. -/
theorem C8_register_success_echoes_record (db : List UserRec) (n e p m : String)
    (hfree : ∀ u ∈ db, u.email ≠ e) :
    postUsers db n e p m =
      (⟨201, Body.messageUser "User created successfully" ⟨n, e, p, m⟩⟩,
        db ++ [⟨n, e, p, m⟩]) ∧
    (UserRec.mk n e p m).password = p := by
  have hfree2 : db.any (fun v => v.email == e) = false := by
    rw [Bool.eq_false_iff]
    intro hany
    obtain ⟨u, hu, hbeq⟩ := List.any_eq_true.mp hany
    exact hfree u hu (by simpa using hbeq)
  exact ⟨by simp [postUsers, userSave, hfree2], rfl⟩

/-- Witness for C8 at the spec's example scenario: registering the
sample record into the empty collection answers 201 with the record,
password field included. -/
theorem C8_register_success_echoes_record_witness :
    (∀ u ∈ ([] : List UserRec), u.email ≠ "a@x.com") ∧
    postUsers [] "A" "a@x.com" "secret1" "555" =
      (⟨201, Body.messageUser "User created successfully" sampleUser⟩, [sampleUser]) :=
  ⟨by decide,
    (C8_register_success_echoes_record [] "A" "a@x.com" "secret1" "555"
      (by decide)).1⟩

/-- C9: the login operation is read-only — whatever the outcome, one
server step on a login request leaves the persisted collection
unchanged. -/
theorem C9_login_readonly (db : List UserRec) (email password : String) :
    (serverStep db (Request.userlogin email password)).2 = db := rfl

/-- C10: when the email matches no persisted record, the login response
is the same for every supplied password — 400 "User not found" — since
the handler short-circuits before the comparison primitive. -/
theorem C10_not_found_noninterference (db : List UserRec) (email p1 p2 : String)
    (h : findOne db email = none) :
    postUserlogin db email p1 = postUserlogin db email p2 ∧
    postUserlogin db email p1 = ⟨400, Body.message "User not found"⟩ := by
  constructor <;> simp [postUserlogin, userloginHandler, h]

/-- Witness for C10: for the unknown email "nobody@x.com" against the
sample collection, two different passwords yield the identical 400
"User not found" response. -/
theorem C10_not_found_noninterference_witness :
    findOne [sampleUser] "nobody@x.com" = none ∧
    postUserlogin [sampleUser] "nobody@x.com" "pw1" =
      postUserlogin [sampleUser] "nobody@x.com" "pw2" ∧
    postUserlogin [sampleUser] "nobody@x.com" "pw1" =
      ⟨400, Body.message "User not found"⟩ :=
  ⟨by decide,
    C10_not_found_noninterference [sampleUser] "nobody@x.com" "pw1" "pw2" (by decide)⟩

end TelecomAuth
